import Mathlib

/-!
Verification of the jbpoline/nh-2024-curriculum repository specification.

The repository holds two instructional Jupyter notebooks:
* `Example_Abagen_Use.ipynb` (abagen microarray parcellation tutorial);
* a PyTorch introduction notebook (tensors, SGD on a parametric curve,
  an MNIST dataset wrapper and a small fully connected network).

We shallowly embed the notebook-level structure (cells with their control
flow, variable reads/writes and local file writes) and the pieces of
original code the notebooks define: the parametric `curve` and `loss`
functions, the `MNISTDataset` wrapper class and the `NeuralNetwork` model.
-/

/-! ## Python statement skeletons

A coarse abstract syntax for the body of a notebook cell: atoms are
single simple statements (assignments, expression statements, library
calls, shell lines); the other constructors record the control-flow
constructs that actually occur in Python source.  `tryStmt` and
`whileLoop` are included so that their absence from the notebooks is a
provable fact rather than a modelling choice. -/

inductive Stmt where
  | atom : String → Stmt
  | seq : Stmt → Stmt → Stmt
  | forLoop : String → Stmt → Stmt
  | ifStmt : String → Stmt → Stmt
  | tryStmt : Stmt → Stmt → Stmt
  | whileLoop : String → Stmt → Stmt
  | continueStmt : Stmt
  | breakStmt : Stmt
deriving DecidableEq

/-- A statement is straight-line when it is a sequence of atoms:
no loop, no branch, no exception handler, no break/continue. -/
def straightLine : Stmt → Bool
  | .atom _ => true
  | .seq a b => straightLine a && straightLine b
  | _ => false

/-- Does the statement contain a try/except block anywhere? -/
def containsTry : Stmt → Bool
  | .atom _ => false
  | .seq a b => containsTry a || containsTry b
  | .forLoop _ b => containsTry b
  | .ifStmt _ b => containsTry b
  | .tryStmt _ _ => true
  | .whileLoop _ b => containsTry b
  | .continueStmt => false
  | .breakStmt => false

/-- Does the statement contain a while loop anywhere? -/
def containsWhile : Stmt → Bool
  | .atom _ => false
  | .seq a b => containsWhile a || containsWhile b
  | .forLoop _ b => containsWhile b
  | .ifStmt _ b => containsWhile b
  | .tryStmt b h => containsWhile b || containsWhile h
  | .whileLoop _ _ => true
  | .continueStmt => false
  | .breakStmt => false

/-! ## Notebook cells

Each code cell is recorded with a label, the skeleton of its body, the
notebook-level variables it reads and writes, and the local files its own
code writes (writes performed internally by libraries, e.g. into a
`data_dir` cache, are not the cell's own writes). -/

structure Cell where
  label : String
  stmt : Stmt
  reads : List String
  writes : List String
  fileWrites : List String
deriving DecidableEq

/-- A cell consisting of a single simple statement. -/
def simpleCell (label code : String) (reads writes fileWrites : List String) : Cell :=
  { label := label, stmt := .atom code, reads := reads, writes := writes,
    fileWrites := fileWrites }

/-- Right-nested sequence of a list of statements (empty list is a no-op). -/
def seqAll : List Stmt → Stmt
  | [] => .atom "pass"
  | [s] => s
  | s :: rest => .seq s (seqAll rest)

/-! ## The abagen notebook (`Example_Abagen_Use.ipynb`)

Transcribed cell by cell.  Variable reads/writes are the notebook-level
data variables; a variable assigned earlier in the same cell counts as
available to later statements of that cell. -/

def abagenNotebook : List Cell :=
  [ simpleCell "install-comment" "commented-out git clone and pip install of abagen" [] [] [],
    simpleCell "import-abagen" "import abagen" [] [] [],
    simpleCell "fetch_microarray"
      "files = abagen.fetch_microarray(donors=all, data_dir=/home/jovyan/shared/abagen-data)"
      [] ["files"] [],
    simpleCell "inspect-files" "files" ["files"] [] [],
    { label := "fetch_desikan_killiany",
      stmt := seqAll [.atom "atlas = abagen.fetch_desikan_killiany(surface=True)",
                      .atom "atlas[image]"],
      reads := ["atlas"], writes := ["atlas"], fileWrites := [] },
    simpleCell "get_expression_data"
      "expression = abagen.get_expression_data(atlas[image], data_dir=/home/jovyan/shared/abagen-data)"
      ["atlas"] ["expression"] [],
    simpleCell "inspect-expression" "expression" ["expression"] [] [],
    { label := "gen_report",
      stmt := seqAll [.atom "from abagen import reporting",
                      .atom "generator = reporting.Report(atlas[image], atlas[info])",
                      .atom "report = generator.gen_report()"],
      reads := ["atlas", "generator"], writes := ["generator", "report"], fileWrites := [] },
    simpleCell "inspect-report" "report" ["report"] [] [],
    { label := "display-report",
      stmt := seqAll [.atom "from IPython.display import display, Markdown",
                      .atom "display(Markdown(report))"],
      reads := ["report"], writes := [], fileWrites := [] },
    simpleCell "get_expression_data_maxprobe"
      "expression_maxprobe, report_maxprobe = abagen.get_expression_data(atlas[image], atlas[info], probe_selection=max_intensity, return_report=True)"
      ["atlas"] ["expression_maxprobe", "report_maxprobe"] [],
    simpleCell "inspect-expression-maxprobe" "expression_maxprobe"
      ["expression_maxprobe"] [] [],
    { label := "display-report-maxprobe",
      stmt := seqAll [.atom "from IPython.display import display, Markdown",
                      .atom "display(Markdown(report_maxprobe))"],
      reads := ["report_maxprobe"], writes := [], fileWrites := [] },
    simpleCell "expression.to_csv"
      "expression.to_csv(Expression_AHBA_abagen_defaultparam.csv, index=False)"
      ["expression"] [] ["Expression_AHBA_abagen_defaultparam.csv"],
    simpleCell "expression_maxprobe.to_csv"
      "expression_maxprobe.to_csv(Expression_AHBA_abagen_maxprobe.csv, index=False)"
      ["expression_maxprobe"] [] ["Expression_AHBA_abagen_maxprobe.csv"],
    { label := "atlas-csv-copy",
      stmt := seqAll [.atom "!head site-packages/abagen/data/atlas-desikankilliany.csv",
                      .atom "!tail site-packages/abagen/data/atlas-desikankilliany.csv",
                      .atom "!cp site-packages/abagen/data/atlas-desikankilliany.csv ./atlas-desikankilliany_copy.csv"],
      reads := [], writes := [], fileWrites := ["atlas-desikankilliany_copy.csv"] } ]

/-! ## The PyTorch introduction notebook

Transcribed cell by cell.  Five cells contain control flow (for-loops,
if-statements, break/continue); every other cell is a straight-line
sequence of library calls and assignments. -/

def pytorchNotebook : List Cell :=
  [ { label := "imports",
      stmt := seqAll [.atom "import torch", .atom "from torch import nn",
                      .atom "from torch.utils.data import DataLoader",
                      .atom "import matplotlib.pyplot as plt"],
      reads := [], writes := [], fileWrites := [] },
    { label := "tensor-basics",
      stmt := seqAll [.atom "u = torch.zeros((10, 3))", .atom "u[:,0] = 1",
                      .atom "u = (u - 0.5) * 3.0", .atom "print(u)"],
      reads := ["u"], writes := ["u"], fileWrites := [] },
    { label := "numpy-mix",
      stmt := seqAll [.atom "import numpy as np", .atom "a = np.zeros((10,3))",
                      .atom "torch.mean(a)"],
      reads := ["a"], writes := ["a"], fileWrites := [] },
    { label := "detach-numpy",
      stmt := seqAll [.atom "a = u.detach().numpy()", .atom "print(type(a))",
                      .atom "print(a)"],
      reads := ["u", "a"], writes := ["a"], fileWrites := [] },
    { label := "define-curve",
      stmt := seqAll [.atom "def curve(t): x = torch.sin(t) - 0.5 and y = torch.cos(t)*2 + torch.cos(2*t) + 0.75 and return (x,y)",
                      .atom "t = torch.linspace(0, np.pi*2, 100)",
                      .atom "(x,y) = curve(t)",
                      .atom "plt.plot(x, y, k-)",
                      .atom "plt.plot of the x and y axes"],
      reads := ["curve", "t", "x", "y"], writes := ["curve", "t", "x", "y"],
      fileWrites := [] },
    { label := "define-loss",
      stmt := seqAll [.atom "def loss(t): (x,y) = curve(t) and return torch.sqrt((x - 0)**2 + (y - 0)**2)",
                      .atom "t = torch.tensor(1.5)", .atom "dist = loss(t)", .atom "dist"],
      reads := ["curve", "loss", "t", "dist"], writes := ["loss", "t", "dist"],
      fileWrites := [] },
    { label := "gradient",
      stmt := seqAll [.atom "t = torch.tensor(1.5, requires_grad=True)",
                      .atom "dist = loss(t)", .atom "dist.backward()", .atom "t.grad"],
      reads := ["loss", "t", "dist"], writes := ["t", "dist"], fileWrites := [] },
    { label := "sgd-optimization",
      stmt := seqAll [.atom "t = torch.tensor(2.1, requires_grad=True)",
                      .atom "optimizer = torch.optim.SGD([t], lr=0.05)",
                      .forLoop "step_number in range(20)"
                        (seqAll [.atom "optimizer.zero_grad()", .atom "dist = loss(t)",
                                 .atom "print(step_number, float(t), float(dist))",
                                 .atom "dist.backward()", .atom "optimizer.step()"]),
                      .atom "print(t, loss(t))"],
      reads := ["loss", "t", "optimizer", "dist"],
      writes := ["t", "optimizer", "dist"], fileWrites := [] },
    { label := "plot-minimum",
      stmt := seqAll [.atom "(x0,y0) = curve(t)", .atom "x0 = x0.detach().numpy()",
                      .atom "y0 = y0.detach().numpy()",
                      .atom "(x,y) = curve(torch.linspace(0, np.pi*2, 100))",
                      .atom "plt.plot(x, y, k-)", .atom "plt.plot of the x and y axes",
                      .atom "plt.plot(x0, y0, r.)"],
      reads := ["curve", "t", "x", "y", "x0", "y0"],
      writes := ["x0", "y0", "x", "y"], fileWrites := [] },
    { label := "load-mnist",
      stmt := seqAll [.atom "(training_labels, training_images) = torch.load(/home/jovyan/shared/benson-deep-learning/mnist_train.pt, weights_only=True)",
                      .atom "(test_labels, test_images) = torch.load(/home/jovyan/shared/benson-deep-learning/mnist_test.pt, weights_only=True)"],
      reads := [],
      writes := ["training_labels", "training_images", "test_labels", "test_images"],
      fileWrites := [] },
    { label := "mnist-dataset-class",
      stmt := seqAll [.atom "class MNISTDataset(torch.utils.data.Dataset) with __init__, __getitem__, __len__",
                      .atom "training_data = MNISTDataset(training_images, training_labels)",
                      .atom "test_data = MNISTDataset(test_images, test_labels)"],
      reads := ["MNISTDataset", "training_images", "training_labels",
                "test_images", "test_labels"],
      writes := ["MNISTDataset", "training_data", "test_data"], fileWrites := [] },
    { label := "dataloader-shapes",
      stmt := seqAll [.atom "batch_size = 64",
                      .atom "train_dataloader = DataLoader(training_data, batch_size=batch_size)",
                      .atom "test_dataloader = DataLoader(test_data, batch_size=batch_size)",
                      .forLoop "X, y in test_dataloader"
                        (seqAll [.atom "print the shape and dtype of X",
                                 .atom "print the shape and dtype of y",
                                 .breakStmt])],
      reads := ["training_data", "test_data", "batch_size", "X", "y"],
      writes := ["batch_size", "train_dataloader", "test_dataloader", "X", "y"],
      fileWrites := [] },
    { label := "show-samples",
      stmt := seqAll [.atom "(fig, axs) = plt.subplots(2, 2, figsize=(4,4))",
                      .atom "axs = axs.flatten()",
                      .forLoop "(X_batch,y_batch) in train_dataloader"
                        (seqAll [.forLoop "(ax,X,y) in zip(axs, X_batch, y_batch)"
                                   (seqAll [.atom "ax.imshow(X)",
                                            .atom "ax.set_title(y.item())",
                                            .atom "ax.axis(off)"]),
                                 .breakStmt])],
      reads := ["train_dataloader", "axs", "X_batch", "y_batch", "ax", "X", "y"],
      writes := ["fig", "axs", "X_batch", "y_batch", "ax", "X", "y"],
      fileWrites := [] },
    { label := "neural-network-class",
      stmt := seqAll [.atom "class NeuralNetwork(nn.Module) with __init__ building nn.Flatten and a Sequential linear_relu_stack, and forward",
                      .atom "model = NeuralNetwork()", .atom "print(model)"],
      reads := ["NeuralNetwork", "model"], writes := ["NeuralNetwork", "model"],
      fileWrites := [] },
    { label := "loss-and-optimizer",
      stmt := seqAll [.atom "loss_fn = nn.CrossEntropyLoss()",
                      .atom "optimizer = torch.optim.SGD(model.parameters(), lr=1e-4)"],
      reads := ["model"], writes := ["loss_fn", "optimizer"], fileWrites := [] },
    { label := "training-loop",
      stmt := seqAll [.atom "size = len(train_dataloader.dataset)",
                      .forLoop "(batch_num, (X, y)) in enumerate(train_dataloader)"
                        (seqAll [.atom "pred = model(X)", .atom "loss = loss_fn(pred, y)",
                                 .atom "optimizer.zero_grad()", .atom "loss.backward()",
                                 .atom "optimizer.step()",
                                 .ifStmt "batch_num % 100 == 0"
                                   (seqAll [.atom "(loss, current) = (loss.item(), batch_num * len(X))",
                                            .atom "print a loss status message"])])],
      reads := ["train_dataloader", "model", "loss_fn", "optimizer",
                "size", "pred", "loss", "X", "y"],
      writes := ["size", "pred", "loss", "current", "X", "y"], fileWrites := [] },
    { label := "evaluation-loop",
      stmt := seqAll [.atom "(fig, axs) = plt.subplots(2, 2, figsize=(6,6))",
                      .atom "axs = axs.flatten()",
                      .forLoop "(X_batch,y_batch) in test_dataloader"
                        (seqAll [.ifStmt "np.random.rand() < 0.9" .continueStmt,
                                 .forLoop "(ax,X,y) in zip(axs, X_batch, y_batch)"
                                   (seqAll [.atom "ax.imshow(X)",
                                            .atom "pred = model(X[None,:])",
                                            .atom "label = torch.argmax(pred)",
                                            .atom "y_name = str(y.item())",
                                            .atom "label_name = str(label.item())",
                                            .atom "ax.set_title(label_name, y_name)",
                                            .atom "ax.axis(off)"]),
                                 .breakStmt])],
      reads := ["test_dataloader", "model", "axs", "X_batch", "y_batch",
                "ax", "X", "y", "pred", "label", "y_name", "label_name"],
      writes := ["fig", "axs", "X_batch", "y_batch", "ax", "X", "y",
                 "pred", "label", "y_name", "label_name"],
      fileWrites := [] } ]

/-! ## Dataflow and file-effect helpers over a notebook -/

/-- Index of the cell with the given label. -/
def cellIdx (nb : List Cell) (label : String) : Nat :=
  nb.findIdx (fun c => c.label == label)

/-- Running top to bottom with `avail` the variables written so far: every
cell may read only variables already written, its own writes included. -/
def wellOrderedFrom (avail : List String) : List Cell → Bool
  | [] => true
  | c :: rest =>
      c.reads.all (fun v => (avail ++ c.writes).contains v) &&
      wellOrderedFrom (avail ++ c.writes) rest

/-- A notebook is well ordered when no cell reads a variable before any
cell has written it. -/
def wellOrdered (nb : List Cell) : Bool := wellOrderedFrom [] nb

/-- All local files written by the notebook code itself, in cell order. -/
def filesWritten (nb : List Cell) : List String :=
  (nb.map Cell.fileWrites).flatten

/-! ## Classes defined by the notebooks

The PyTorch notebook defines exactly two classes, both subclassing a
library base class; the abagen notebook defines none. -/

structure ClassDef where
  name : String
  base : String
  methods : List String
deriving DecidableEq

/-- The class definitions appearing in notebook code, in source order. -/
def notebookClassDefs : List ClassDef :=
  [ { name := "MNISTDataset", base := "torch.utils.data.Dataset",
      methods := ["__init__", "__getitem__", "__len__"] },
    { name := "NeuralNetwork", base := "nn.Module",
      methods := ["__init__", "forward"] } ]

/-- Base classes provided by the external libraries. -/
def libraryBaseClasses : List String := ["torch.utils.data.Dataset", "nn.Module"]

/-! ## `MNISTDataset`

```python
class MNISTDataset(torch.utils.data.Dataset):
    def __init__(self, images, labels):
        self.images = images.float()
        self.labels = labels
    def __getitem__(self, ii):
        return (self.images[ii], self.labels[ii])
    def __len__(self):
        return len(self.labels)
```

A stored image is a 28x28 grid of pixels; the raw tensors hold integer
pixel values and `.float()` casts each pixel, so raw images are lists of
lists of naturals and stored images lists of lists of rationals.
Indexing a tensor out of range raises; `Tensor.index` returns that
outcome in `Except`. -/

/-- Python-style indexing into the leading axis of a tensor: out of range
raises an IndexError. -/
def Tensor.index {α : Type} (xs : List α) (i : Nat) : Except String α :=
  if h : i < xs.length then .ok (xs.get ⟨i, h⟩) else .error "IndexError"

/-- `.float()` on a stack of integer-pixel images: cast every pixel. -/
def imageFloat (im : List (List Nat)) : List (List ℚ) :=
  im.map (fun row => row.map (fun p => (p : ℚ)))

structure MNISTDataset (α β : Type) where
  images : List α
  labels : List β
deriving DecidableEq

/-- `MNISTDataset.__init__`: store `images.float()` and `labels` as passed. -/
def MNISTDataset.make (images : List (List (List Nat))) (labels : List Nat) :
    MNISTDataset (List (List ℚ)) Nat :=
  { images := images.map imageFloat, labels := labels }

/-- `MNISTDataset.__getitem__`: return `(self.images[ii], self.labels[ii])`,
propagating whatever indexing raises; there is no validation of `ii`. -/
def MNISTDataset.getitem {α β : Type} (d : MNISTDataset α β) (ii : Nat) :
    Except String (α × β) := do
  let img ← Tensor.index d.images ii
  let lab ← Tensor.index d.labels ii
  pure (img, lab)

/-- `MNISTDataset.__len__`: `len(self.labels)`. -/
def MNISTDataset.len {α β : Type} (d : MNISTDataset α β) : Nat :=
  d.labels.length

/-! ## `NeuralNetwork`

```python
class NeuralNetwork(nn.Module):
    def __init__(self):
        super(NeuralNetwork, self).__init__()
        self.flatten = nn.Flatten()
        self.linear_relu_stack = nn.Sequential(
            nn.Linear(28*28, 512), nn.ReLU(),
            nn.Linear(512, 512), nn.ReLU(),
            nn.Linear(512, 10), nn.ReLU())
    def forward(self, x):
        x = self.flatten(x)
        logits = self.linear_relu_stack(x)
        return logits
```

Weights live in the three `nn.Linear` modules; a batch is a list of
samples and `nn.Flatten` flattens each 28x28 sample to a vector of 784
entries. -/

/-- Dot product of a weight row with an input vector. -/
def dotProduct (w v : List ℚ) : ℚ :=
  ((w.zip v).map (fun p => p.1 * p.2)).sum

/-- One `nn.Linear` module applied to a single sample: each output entry
is a weight row dotted with the input, plus that row's bias. -/
def nnLinear (w : List (List ℚ)) (b : List ℚ) (v : List ℚ) : List ℚ :=
  (w.zip b).map (fun p => dotProduct p.1 v + p.2)

/-- `nn.ReLU` applied to a single sample, elementwise max with 0. -/
def nnReLU (v : List ℚ) : List ℚ :=
  v.map (fun q => max 0 q)

/-- `nn.Flatten` applied to a single 28x28 sample. -/
def nnFlatten (im : List (List ℚ)) : List ℚ :=
  im.flatten

/-- The parameters of the three `nn.Linear` modules of the stack:
`w1/b1` for `nn.Linear(28*28, 512)`, `w2/b2` for `nn.Linear(512, 512)`,
`w3/b3` for `nn.Linear(512, 10)`. -/
structure NeuralNetwork where
  w1 : List (List ℚ)
  b1 : List ℚ
  w2 : List (List ℚ)
  b2 : List ℚ
  w3 : List (List ℚ)
  b3 : List ℚ

/-- `self.linear_relu_stack` on a single flattened sample. -/
def NeuralNetwork.linear_relu_stack (m : NeuralNetwork) (v : List ℚ) : List ℚ :=
  nnReLU (nnLinear m.w3 m.b3 (nnReLU (nnLinear m.w2 m.b2 (nnReLU (nnLinear m.w1 m.b1 v)))))

/-- `NeuralNetwork.forward` on a batch: flatten each sample, then apply
the linear/ReLU stack. -/
def NeuralNetwork.forward (m : NeuralNetwork) (x : List (List (List ℚ))) :
    List (List ℚ) :=
  x.map (fun im => m.linear_relu_stack (nnFlatten im))

/-- The parameter shapes `nn.Linear(28*28, 512)`, `nn.Linear(512, 512)`
and `nn.Linear(512, 10)` guarantee on construction. -/
def NeuralNetwork.wellFormed (m : NeuralNetwork) : Prop :=
  m.w1.length = 512 ∧ m.b1.length = 512 ∧ (∀ r ∈ m.w1, r.length = 28 * 28) ∧
  m.w2.length = 512 ∧ m.b2.length = 512 ∧ (∀ r ∈ m.w2, r.length = 512) ∧
  m.w3.length = 10 ∧ m.b3.length = 10 ∧ (∀ r ∈ m.w3, r.length = 512)

/-! ## `curve` and `loss`

```python
def curve(t):
    x = torch.sin(t) - 0.5
    y = torch.cos(t)*2 + torch.cos(2*t) + 0.75
    return (x,y)

def loss(t):
    (x,y) = curve(t)
    return torch.sqrt((x - 0)**2 + (y - 0)**2)
```

Modelled over the real numbers, the idealised semantics of the tensor
arithmetic. -/

noncomputable def curve (t : ℝ) : ℝ × ℝ :=
  (Real.sin t - 0.5, Real.cos t * 2 + Real.cos (2 * t) + 0.75)

noncomputable def loss (t : ℝ) : ℝ :=
  Real.sqrt (((curve t).1 - 0) ^ 2 + ((curve t).2 - 0) ^ 2)

/-- Euclidean distance from the origin to a point of the plane. -/
noncomputable def euclidDistToOrigin (p : ℝ × ℝ) : ℝ :=
  Real.sqrt (p.1 ^ 2 + p.2 ^ 2)

/-! ## Concrete instances used to instantiate the parametric theorems -/

/-- A zero-initialised parameter set with the shapes of
`nn.Linear(28*28, 512)`, `nn.Linear(512, 512)` and `nn.Linear(512, 10)`. -/
def nnZeroParams : NeuralNetwork :=
  { w1 := List.replicate 512 (List.replicate (28 * 28) 0),
    b1 := List.replicate 512 0,
    w2 := List.replicate 512 (List.replicate 512 0),
    b2 := List.replicate 512 0,
    w3 := List.replicate 10 (List.replicate 512 0),
    b3 := List.replicate 10 0 }

/-- An all-zero 28x28 sample. -/
def imgZero : List (List ℚ) := List.replicate 28 (List.replicate 28 0)

/-! # Theorems -/

/-- C1 (counterexample).  The claim says no function defined in the
notebooks computes a result with its own mathematical specification.  The
PyTorch notebook defines `curve` and `loss`; at the concrete input 0,
`curve` evaluates to the point (-1/2, 15/4) and `loss` to the Euclidean
distance from the origin to that point (the square of `loss 0` is 229/16),
a specification independent of any library. -/
theorem curve_loss_independent_spec_at_zero :
    curve 0 = (-(1 / 2 : ℝ), 15 / 4) ∧ (loss 0) ^ 2 = 229 / 16 ∧ 0 ≤ loss 0 := by
  refine ⟨?_, ?_, ?_⟩
  · unfold curve
    norm_num
  · unfold loss curve
    rw [Real.sq_sqrt (by positivity)]
    norm_num
  · unfold loss
    exact Real.sqrt_nonneg _

/-- C1 (amended).  The notebooks do define original, independently
specifiable computations: the notebook-defined `loss` satisfies, for every
real t, the library-independent specification of being the Euclidean
distance from the origin to `curve t`. -/
theorem loss_is_euclidean_distance_to_origin (t : ℝ) :
    loss t = euclidDistToOrigin (curve t) := by
  unfold loss euclidDistToOrigin
  congr 1
  ring

/-- C2 (counterexample).  Not every notebook cell is a straight-line
(branch-free, loop-free) sequence of statements: the SGD-optimization,
dataloader-inspection, sample-display, training-loop and evaluation-loop
cells contain for-loops, if-statements, break and continue. -/
theorem notebook_cells_not_all_straightline :
    ¬ (((abagenNotebook ++ pytorchNotebook).all (fun c => straightLine c.stmt)) = true) := by
  decide

/-- C2 (amended).  Every abagen-notebook cell is straight-line; no cell of
either notebook contains a try/except block or a while loop; and the cells
with custom control flow (for-loops, if-statements, break/continue) are
exactly the five PyTorch cells shown. -/
theorem notebook_control_flow_profile :
    (abagenNotebook.all (fun c => straightLine c.stmt)) = true ∧
    ((abagenNotebook ++ pytorchNotebook).all (fun c => !(containsTry c.stmt))) = true ∧
    ((abagenNotebook ++ pytorchNotebook).all (fun c => !(containsWhile c.stmt))) = true ∧
    ((pytorchNotebook.filter (fun c => !(straightLine c.stmt))).map Cell.label) =
      ["sgd-optimization", "dataloader-shapes", "show-samples", "training-loop",
       "evaluation-loop"] := by
  decide

/-- C3 (counterexample).  The claim says dataset wrapping and model
definition introduce no classes defined by this repository; in fact the
PyTorch notebook defines the classes MNISTDataset and NeuralNetwork. -/
theorem notebook_defines_classes :
    notebookClassDefs ≠ [] ∧
    notebookClassDefs.map ClassDef.name = ["MNISTDataset", "NeuralNetwork"] := by
  decide

/-- C3 (amended).  Dataset wrapping and model definition go through two
notebook-defined subclasses of library base classes: MNISTDataset
(subclassing torch.utils.data.Dataset, with its own `__init__`,
`__getitem__` and `__len__`) and NeuralNetwork (subclassing nn.Module,
with its own `__init__` and forward). -/
theorem notebook_class_definitions :
    notebookClassDefs.map ClassDef.name = ["MNISTDataset", "NeuralNetwork"] ∧
    (notebookClassDefs.all (fun c => libraryBaseClasses.contains c.base)) = true ∧
    notebookClassDefs.map ClassDef.methods =
      [["__init__", "__getitem__", "__len__"], ["__init__", "forward"]] := by
  decide

/-- C4.  `MNISTDataset.__getitem__` performs no validation of its index:
whenever the underlying tensor indexing raises an error, `__getitem__`
propagates exactly that error; and no cell of either notebook contains a
try/except block that could catch it. -/
theorem getitem_propagates_index_error {α β : Type} (d : MNISTDataset α β)
    (ii : Nat) (e : String) (h : Tensor.index d.images ii = .error e) :
    d.getitem ii = .error e ∧
    ((abagenNotebook ++ pytorchNotebook).all (fun c => !(containsTry c.stmt))) = true := by
  refine ⟨?_, by decide⟩
  unfold MNISTDataset.getitem
  rw [h]
  rfl

/-- C4 (witness).  On the empty dataset, index 0 is out of range and
`__getitem__` returns the IndexError that tensor indexing raised. -/
theorem getitem_propagates_index_error_witness :
    (MNISTDataset.make [] []).getitem 0 = .error "IndexError" ∧
    ((abagenNotebook ++ pytorchNotebook).all (fun c => !(containsTry c.stmt))) = true :=
  getitem_propagates_index_error (MNISTDataset.make [] []) 0 "IndexError" rfl

/-- C5.  The abagen notebook is linearly ordered: the `fetch_microarray`
cell precedes the `get_expression_data` cell; each `to_csv` cell comes
after the cell that computes the DataFrame it saves; and, in general, no
cell reads a notebook variable before some cell has written it. -/
theorem abagen_notebook_linear_order :
    cellIdx abagenNotebook "fetch_microarray" <
      cellIdx abagenNotebook "get_expression_data" ∧
    cellIdx abagenNotebook "get_expression_data" <
      cellIdx abagenNotebook "expression.to_csv" ∧
    cellIdx abagenNotebook "get_expression_data_maxprobe" <
      cellIdx abagenNotebook "expression_maxprobe.to_csv" ∧
    wellOrdered abagenNotebook = true := by
  decide

/-- C6.  The local files written by notebook code itself are exactly the
two expression CSV files and the atlas copy, all from the abagen notebook;
the PyTorch notebook writes no local file. -/
theorem notebook_local_file_writes :
    filesWritten abagenNotebook =
      ["Expression_AHBA_abagen_defaultparam.csv",
       "Expression_AHBA_abagen_maxprobe.csv",
       "atlas-desikankilliany_copy.csv"] ∧
    filesWritten pytorchNotebook = [] := by
  decide

/-- C7.  For tensors of equal leading length, the constructed MNISTDataset
has `len` equal to the number of labels, stores the labels exactly as
passed, and `__getitem__` at an in-range index returns the pair of the
float-converted image and the label. -/
theorem mnist_dataset_correct (images : List (List (List Nat))) (labels : List Nat)
    (hlen : images.length = labels.length) (ii : Nat) (hii : ii < labels.length) :
    (MNISTDataset.make images labels).len = labels.length ∧
    (MNISTDataset.make images labels).labels = labels ∧
    (MNISTDataset.make images labels).getitem ii =
      .ok (imageFloat (images.get ⟨ii, by omega⟩), labels.get ⟨ii, hii⟩) := by
  refine ⟨rfl, rfl, ?_⟩
  have himg : ii < (images.map imageFloat).length := by
    rw [List.length_map, hlen]
    exact hii
  unfold MNISTDataset.getitem MNISTDataset.make Tensor.index
  rw [dif_pos himg, dif_pos hii]
  simp only [List.get_eq_getElem, List.getElem_map]
  rfl

/-- C7 (witness).  A one-image, one-label dataset: length 1, labels kept,
item 0 is the cast image paired with the label. -/
theorem mnist_dataset_correct_witness :
    (MNISTDataset.make [[[1, 2]]] [7]).len = 1 ∧
    (MNISTDataset.make [[[1, 2]]] [7]).labels = [7] ∧
    (MNISTDataset.make [[[1, 2]]] [7]).getitem 0 =
      .ok (imageFloat ([[[1, 2]]].get ⟨0, by decide⟩), [7].get ⟨0, by decide⟩) :=
  mnist_dataset_correct [[[1, 2]]] [7] rfl 0 (by decide)

/-- C8.  For every real t, `loss t` is the square root of
(sin t - 0.5)^2 + (2 cos t + cos 2t + 0.75)^2 — the Euclidean distance
from the origin to `curve t` — and in particular is nonnegative. -/
theorem loss_formula_and_nonneg (t : ℝ) :
    loss t = Real.sqrt ((Real.sin t - 0.5) ^ 2 +
      (2 * Real.cos t + Real.cos (2 * t) + 0.75) ^ 2) ∧
    0 ≤ loss t := by
  constructor
  · unfold loss curve
    congr 1
    ring
  · unfold loss
    exact Real.sqrt_nonneg _

/-- C9.  On a batch of N images of shape 28x28, with parameters of the
shapes the three `nn.Linear` modules are built with, `forward` returns N
rows of length 10, and every entry is nonnegative because the stack ends
in a ReLU. -/
theorem neuralNetwork_forward_shape_relu_nonneg (m : NeuralNetwork)
    (hm : m.wellFormed) (x : List (List (List ℚ)))
    (hx : ∀ im ∈ x, im.length = 28 ∧ ∀ r ∈ im, r.length = 28) :
    (m.forward x).length = x.length ∧
    ∀ row ∈ m.forward x, row.length = 10 ∧ ∀ q ∈ row, 0 ≤ q := by
  obtain ⟨h1, h2, h3, h4, h5, h6, h7, h8, h9⟩ := hm
  refine ⟨by simp [NeuralNetwork.forward], ?_⟩
  intro row hrow
  simp only [NeuralNetwork.forward, List.mem_map] at hrow
  obtain ⟨im, him, rfl⟩ := hrow
  constructor
  · simp [NeuralNetwork.linear_relu_stack, nnReLU, nnLinear, h7, h8]
  · intro q hq
    simp only [NeuralNetwork.linear_relu_stack, nnReLU, List.mem_map] at hq
    obtain ⟨a, ha, rfl⟩ := hq
    exact le_max_left 0 a

set_option maxRecDepth 8192 in
/-- C9 (witness).  The zero-initialised parameters are well formed and on
the one-sample batch `[imgZero]` the network returns one row of length 10
with nonnegative entries. -/
theorem neuralNetwork_forward_shape_relu_nonneg_witness :
    (nnZeroParams.forward [imgZero]).length = [imgZero].length ∧
    ∀ row ∈ nnZeroParams.forward [imgZero], row.length = 10 ∧ ∀ q ∈ row, 0 ≤ q := by
  have hm : nnZeroParams.wellFormed := by
    refine ⟨by simp [nnZeroParams], by simp [nnZeroParams], ?_,
            by simp [nnZeroParams], by simp [nnZeroParams], ?_,
            by simp [nnZeroParams], by simp [nnZeroParams], ?_⟩ <;>
      · intro r hr
        rw [List.eq_of_mem_replicate hr]
        simp
  have hx : ∀ im ∈ [imgZero], im.length = 28 ∧ ∀ r ∈ im, r.length = 28 := by
    intro im him
    rw [List.mem_singleton] at him
    subst him
    refine ⟨rfl, ?_⟩
    intro r hr
    rw [List.eq_of_mem_replicate hr]
    rfl
  exact neuralNetwork_forward_shape_relu_nonneg nnZeroParams hm [imgZero] hx
